import Mathlib

/-!
Verification of the antilopay-node SDK (`src/index.ts`) against its
natural-language specification.

The TypeScript source is shallowly embedded: the `AntilopayService` class
becomes a record of its instance fields, methods become pure functions over
that record, JS `JSON.stringify` is modelled by an executable serializer over
a `Json` inductive, and the external Node `crypto` signing primitive is a
function parameter (the SDK never inspects the signature it produces).
Network effects (axios) are modelled by the request value the SDK builds and
by a function from the transport outcome to the promise outcome.
-/

/-- JSON values, as produced by the JS object literals the SDK serializes.
Numbers are restricted to integers, which covers every numeric field the SDK
sends or receives (`amount`, `vat`, `product_quantity`, `code`). -/
inductive Json where
  | null
  | bool (b : Bool)
  | num (n : Int)
  | str (s : String)
  | arr (elems : List Json)
  | obj (fields : List (String × Json))

/-- One character of JS `JSON.stringify` string quoting: quote, backslash and
control characters are escaped, everything else passes through. -/
def Json.escapeChar (c : Char) : String :=
  if c = '\"' then "\\\""
  else if c = '\\' then "\\\\"
  else if c = Char.ofNat 8 then "\\b"
  else if c = Char.ofNat 9 then "\\t"
  else if c = Char.ofNat 10 then "\\n"
  else if c = Char.ofNat 12 then "\\f"
  else if c = Char.ofNat 13 then "\\r"
  else if c.toNat < 32 then
    "\\u00" ++ (if c.toNat < 16 then "0" else "") ++ String.mk (Nat.toDigits 16 c.toNat)
  else String.singleton c

/-- JS `JSON.stringify` string-body quoting, applied character by character. -/
def Json.escapeString (s : String) : String :=
  String.join (s.toList.map Json.escapeChar)

mutual

/-- Model of JS `JSON.stringify` on the values of `Json`: no insignificant
whitespace, object keys in insertion order, integers in decimal. -/
def Json.stringify : Json → String
  | .null => "null"
  | .bool true => "true"
  | .bool false => "false"
  | .num n => toString n
  | .str s => "\"" ++ Json.escapeString s ++ "\""
  | .arr elems => "[" ++ Json.stringifyElems elems ++ "]"
  | .obj fields => "\x7b" ++ Json.stringifyFields fields ++ "\x7d"

/-- Comma-separated serialization of a JSON array body. -/
def Json.stringifyElems : List Json → String
  | [] => ""
  | [x] => Json.stringify x
  | x :: y :: rest => Json.stringify x ++ "," ++ Json.stringifyElems (y :: rest)

/-- Comma-separated serialization of a JSON object body. -/
def Json.stringifyFields : List (String × Json) → String
  | [] => ""
  | [(k, v)] => "\"" ++ Json.escapeString k ++ "\":" ++ Json.stringify v
  | (k, v) :: f :: rest =>
      "\"" ++ Json.escapeString k ++ "\":" ++ Json.stringify v ++ "," ++
        Json.stringifyFields (f :: rest)

end

/-- The empty JS object literal, the argument the SDK passes to
`generateSignature` from `getApiHeaders`. -/
def Json.emptyObject : Json := .obj []

/-- The key list of a JSON object (empty on non-objects). -/
def Json.objKeys : Json → List String
  | .obj fields => fields.map (fun kv => kv.1)
  | _ => []

/-- The external Node `crypto` signing pipeline
`createSign(algorithm).update(data).sign(key, encoding)`, abstracted as a
function of (algorithm, data, key, encoding). The SDK treats its output as
an opaque string. -/
def CryptoSign : Type := String → String → String → String → String

/-- The external RSA primitive pair: Node signing as in `CryptoSign`, plus
verification `createVerify(algorithm).update(data).verify(publicKey,
signature, encoding)` as a function of (algorithm, data, publicKey,
signature, encoding). -/
structure CryptoPrimitive where
  sign : CryptoSign
  verify : String → String → String → String → String → Bool

/-- `IAntilopayCustomer`: the argument shape of the `AntilopayCustomer`
constructor. A field the JS caller omits is the empty string (both are falsy
for the constructor's guard). -/
structure IAntilopayCustomer where
  email : String
  phone : String
  address : String
  ipAddress : String
  fullName : String
deriving DecidableEq, Repr

/-- The `AntilopayCustomer` instance fields. -/
structure AntilopayCustomer where
  email : String
  phone : String
  address : String
  ipAddress : String
  fullName : String
deriving DecidableEq, Repr

/-- The `AntilopayCustomer` constructor: throws (here `Except.error`) when
both `email` and `phone` are falsy, otherwise copies the five fields. -/
def AntilopayCustomer.create (c : IAntilopayCustomer) : Except String AntilopayCustomer :=
  if c.email = "" ∧ c.phone = "" then
    .error "Either email or phone must be provided."
  else
    .ok ⟨c.email, c.phone, c.address, c.ipAddress, c.fullName⟩

/-- `AntilopayCustomer.toJSON`: the five-key object literal
`(email, phone, address, ip, fullname)` that `JSON.stringify` uses for a
customer. -/
def AntilopayCustomer.toJSON (c : AntilopayCustomer) : Json :=
  .obj [("email", .str c.email),
        ("phone", .str c.phone),
        ("address", .str c.address),
        ("ip", .str c.ipAddress),
        ("fullname", .str c.fullName)]

/-- `IAntilopayPaymentIntent`: the payment-creation request. `Option` marks
the fields the interface declares optional; `params` holds the
`direct_nspk` flag of `IAntilopayPaymentIntentParams`. -/
structure IAntilopayPaymentIntent where
  project_identifier : String
  amount : Int
  order_id : String
  currency : String
  product_name : String
  product_type : String
  product_quantity : Option Int
  vat : Option Int
  description : String
  success_url : Option String
  fail_url : Option String
  customer : AntilopayCustomer
  prefer_methods : Option (List String)
  merchant_extra : Option String
  params : Option Bool
deriving DecidableEq, Repr

/-- The JSON value axios serializes for a payment intent: interface fields in
declaration order, `undefined` (absent optional) fields dropped, the customer
rendered through its `toJSON`. -/
def IAntilopayPaymentIntent.toJson (p : IAntilopayPaymentIntent) : Json :=
  .obj ([("project_identifier", Json.str p.project_identifier),
         ("amount", Json.num p.amount),
         ("order_id", Json.str p.order_id),
         ("currency", Json.str p.currency),
         ("product_name", Json.str p.product_name),
         ("product_type", Json.str p.product_type)]
    ++ (match p.product_quantity with
        | some q => [("product_quantity", Json.num q)]
        | none => [])
    ++ (match p.vat with
        | some v => [("vat", Json.num v)]
        | none => [])
    ++ [("description", Json.str p.description)]
    ++ (match p.success_url with
        | some u => [("success_url", Json.str u)]
        | none => [])
    ++ (match p.fail_url with
        | some u => [("fail_url", Json.str u)]
        | none => [])
    ++ [("customer", p.customer.toJSON)]
    ++ (match p.prefer_methods with
        | some ms => [("prefer_methods", Json.arr (ms.map Json.str))]
        | none => [])
    ++ (match p.merchant_extra with
        | some m => [("merchant_extra", Json.str m)]
        | none => [])
    ++ (match p.params with
        | some d => [("params", Json.obj [("direct_nspk", Json.bool d)])]
        | none => []))

/-- `IAntilopayServiceConstructor`: the credential quadruple accepted by
`AntilopayService.init`. -/
structure IAntilopayServiceConstructor where
  projectId : String
  secretId : String
  secretKey : String
  publicKey : String
deriving DecidableEq, Repr

/-- The instance fields of `AntilopayService` (the axios client handle, pure
transport plumbing, carries no data the methods read). -/
structure AntilopayService where
  baseUrl : String
  apiVersion : Int
  signingAlgorithm : String
  signingAlgorithmOutput : String
  projectId : String
  secretId : String
  secretKey : String
  publicKey : String
deriving DecidableEq, Repr

/-- The private `AntilopayService` constructor: every field at its declared
initializer. -/
def AntilopayService.construct : AntilopayService :=
  { baseUrl := "https://api.antilopay.com/v1"
    apiVersion := 1
    signingAlgorithm := "RSA-SHA256"
    signingAlgorithmOutput := "base64"
    projectId := ""
    secretId := ""
    secretKey := ""
    publicKey := "" }

/-- `AntilopayService.getInstance` acting on the static `instance` slot:
creates and stores a fresh instance when the slot is empty, otherwise returns
the stored one. Result: (returned instance, slot afterwards). -/
def AntilopayService.getInstance :
    Option AntilopayService → AntilopayService × Option AntilopayService
  | none => (AntilopayService.construct, some AntilopayService.construct)
  | some inst => (inst, some inst)

/-- `AntilopayService.init`: writes the four credential fields. -/
def AntilopayService.init (st : AntilopayService)
    (c : IAntilopayServiceConstructor) : AntilopayService :=
  { st with
    projectId := c.projectId
    secretId := c.secretId
    secretKey := c.secretKey
    publicKey := c.publicKey }

/-- `AntilopayService.setBaseUrl`. -/
def AntilopayService.setBaseUrl (st : AntilopayService) (url : String) :
    AntilopayService :=
  { st with baseUrl := url }

/-- `AntilopayService.generateSignature`: `JSON.stringify` the payload, then
sign the string with `signingAlgorithm`, `secretKey` and
`signingAlgorithmOutput` through the crypto primitive. -/
def AntilopayService.generateSignature (csign : CryptoSign)
    (st : AntilopayService) (payload : Json) : String :=
  csign st.signingAlgorithm (Json.stringify payload) st.secretKey
    st.signingAlgorithmOutput

/-- `AntilopayService.getApiHeaders`: the three-entry header record, with the
signature taken over the empty object literal. -/
def AntilopayService.getApiHeaders (csign : CryptoSign)
    (st : AntilopayService) : List (String × String) :=
  [("X-Apay-Secret-Id", st.projectId),
   ("X-Apay-Sign-Version", toString st.apiVersion),
   ("X-Apay-Sign", AntilopayService.generateSignature csign st Json.emptyObject)]

/-- An outbound HTTP POST as the SDK hands it to axios: URL, serialized
body, headers. -/
structure HttpRequest where
  url : String
  body : String
  headers : List (String × String)
deriving DecidableEq, Repr

/-- The request `createPaymentIntent` issues:
`POST baseUrl/payment/create` with the intent as body and `getApiHeaders`
as headers. -/
def AntilopayService.createPaymentIntentRequest (csign : CryptoSign)
    (st : AntilopayService) (paymentIntent : IAntilopayPaymentIntent) :
    HttpRequest :=
  { url := st.baseUrl ++ "/payment/create"
    body := Json.stringify paymentIntent.toJson
    headers := AntilopayService.getApiHeaders csign st }

/-- The request `verifySignature` issues:
`POST baseUrl/signature/check` with the stringified payload as body and
`getApiHeaders` as headers. -/
def AntilopayService.verifySignatureRequest (csign : CryptoSign)
    (st : AntilopayService) (payload : Json) : HttpRequest :=
  { url := st.baseUrl ++ "/signature/check"
    body := Json.stringify payload
    headers := AntilopayService.getApiHeaders csign st }

/-- What the axios call delivers back to `createPaymentIntent`: either a
resolved response carrying `response.data`, or a rejection (network fault,
timeout, or non-2xx status) carrying a message. -/
inductive AxiosOutcome where
  | resolved (data : Json)
  | rejected (message : String)

/-- How the `createPaymentIntent` promise settles for its caller. -/
inductive PromiseOutcome where
  | returned (data : Json)
  | threw (message : String)

/-- The response handling of `createPaymentIntent`: `return response.data as
AntilopayPaymentIntentResponse` — an unchecked cast, so a resolved response
is returned as the result whatever its contents, and an axios rejection
propagates (there is no try/catch and no retry). -/
def AntilopayService.createPaymentIntentOutcome (outcome : AxiosOutcome) :
    PromiseOutcome :=
  match outcome with
  | .resolved data => .returned data
  | .rejected m => .threw m

/-- Modelled from the spec: `SignatureEngine.verify` is absent from `src/`
(the SDK only has the outbound `generateSignature`). Per the spec it
re-serializes the payload with the same deterministic rules and checks the
supplied signature against the account's public verification key through the
external verification primitive. -/
def SignatureEngine.verify (prim : CryptoPrimitive) (st : AntilopayService)
    (payload : Json) (signature : String) : Bool :=
  prim.verify st.signingAlgorithm (Json.stringify payload) st.publicKey
    signature st.signingAlgorithmOutput

/-- A webhook verification outcome, per the spec's `Accepted`/`Rejected`. -/
inductive WebhookOutcome where
  | accepted (payload : Json)
  | rejected (reason : String)

/-- Modelled from the spec: the WebhookVerifier is absent from `src/`. Per
the spec it parses the raw body (parsing is the external `JSON.parse`, here a
parameter), answers `Rejected "malformed payload"` on a non-parseable body,
and otherwise consults `SignatureEngine.verify`, answering `Accepted` on
true and `Rejected "signature mismatch"` on false — always an outcome,
never a thrown exception. -/
def WebhookVerifier.verify (prim : CryptoPrimitive) (st : AntilopayService)
    (parse : String → Option Json) (rawBody claimedSignature : String) :
    WebhookOutcome :=
  match parse rawBody with
  | none => .rejected "malformed payload"
  | some payload =>
      if SignatureEngine.verify prim st payload claimedSignature then
        .accepted payload
      else
        .rejected "signature mismatch"


/-!
Concrete fixtures used by the closed theorems and witnesses below.
-/

/-- A concrete executable signing primitive: it records its four arguments
into the output string, so distinct data yield distinct signatures. -/
def demoSign : CryptoSign :=
  fun algorithm data key encoding =>
    algorithm ++ "(" ++ key ++ "," ++ encoding ++ "):" ++ data

/-- A concrete credential quadruple. -/
def demoCredentials : IAntilopayServiceConstructor :=
  { projectId := "proj-1"
    secretId := "sec-1"
    secretKey := "privkey-1"
    publicKey := "pubkey-1" }

/-- The service after `getInstance` and `init` with `demoCredentials`. -/
def demoService : AntilopayService :=
  AntilopayService.init AntilopayService.construct demoCredentials

/-- A concrete customer (email present, phone absent). -/
def demoCustomer : AntilopayCustomer :=
  { email := "customer@example.com"
    phone := ""
    address := "Moscow"
    ipAddress := "127.0.0.1"
    fullName := "Customer Name" }

/-- A concrete payment intent, as in the repository's usage example. -/
def demoIntent : IAntilopayPaymentIntent :=
  { project_identifier := "proj-1"
    amount := 10
    order_id := "TEST1"
    currency := "RUB"
    product_name := "Test Product"
    product_type := "goods"
    product_quantity := none
    vat := none
    description := "Testing Antilopay SDK"
    success_url := none
    fail_url := none
    customer := demoCustomer
    prefer_methods := none
    merchant_extra := none
    params := none }

/-- A server reply whose result code is nonzero (the processor's
invalid-signature rejection). -/
def demoErrorResponse : Json :=
  .obj [("code", .num 3),
        ("payment_id", .str ""),
        ("payment_url", .str ""),
        ("error", .str "Invalid sign")]

/-- A server reply claiming direct-NSPK routing but carrying no
`transaction_id` field. -/
def demoNspkResponseMissingTx : Json :=
  .obj [("code", .num 0),
        ("payment_id", .str "APAY1"),
        ("payment_url", .str "https://pay.example"),
        ("error", .str ""),
        ("direct_nspk", .bool true)]

/-- A concrete crypto primitive pair whose verification accepts exactly the
signatures `demoSign` produces with the key `privkey-1`. -/
def demoPrimitive : CryptoPrimitive :=
  { sign := demoSign
    verify := fun algorithm data _publicKey signature encoding =>
      signature == algorithm ++ "(" ++ "privkey-1" ++ "," ++ encoding ++ "):" ++ data }

/-!
Claim theorems.
-/

/-- Claim C1 (refuted by the code, which is a bug against the spec's stated
intent): for the concretely initialized service and payment intent, the
X-Apay-Sign header that `createPaymentIntent` transmits is the signature
over the fixed two-character string serializing the empty object, and it
differs from the signature over the serialized request body that is actually
transmitted. -/
theorem createPaymentIntent_signs_empty_object_not_body :
    (AntilopayService.createPaymentIntentRequest demoSign demoService demoIntent).headers =
      [("X-Apay-Secret-Id", "proj-1"),
       ("X-Apay-Sign-Version", "1"),
       ("X-Apay-Sign", demoSign "RSA-SHA256" "\x7b\x7d" "privkey-1" "base64")] ∧
    demoSign "RSA-SHA256" "\x7b\x7d" "privkey-1" "base64" ≠
      demoSign "RSA-SHA256"
        (AntilopayService.createPaymentIntentRequest demoSign demoService demoIntent).body
        "privkey-1" "base64" :=
  ⟨rfl, by decide⟩

/-- Claim C3 (refuted by the code, which is a bug against the spec's stated
intent): `getApiHeaders` does return exactly the three expected headers with
the version rendered in decimal, but the X-Apay-Secret-Id entry carries the
project identifier, not the secret identifier supplied at init. -/
theorem getApiHeaders_secret_id_header_carries_project_id :
    AntilopayService.getApiHeaders demoSign demoService =
      [("X-Apay-Secret-Id", "proj-1"),
       ("X-Apay-Sign-Version", "1"),
       ("X-Apay-Sign", demoSign "RSA-SHA256" "\x7b\x7d" "privkey-1" "base64")] ∧
    demoService.secretId = "sec-1" ∧
    demoService.projectId ≠ demoService.secretId :=
  ⟨rfl, rfl, by decide⟩

/-- Claim C4 (refuted by the code, which is a bug against the spec's stated
intent): a resolved response with nonzero result code is returned to the
caller as the success value of the promise — no ApiError is raised — while
an axios rejection does propagate unchanged. -/
theorem createPaymentIntent_returns_nonzero_code_as_success :
    AntilopayService.createPaymentIntentOutcome (.resolved demoErrorResponse) =
      .returned demoErrorResponse ∧
    (∀ m, AntilopayService.createPaymentIntentOutcome (.rejected m) = .threw m) :=
  ⟨rfl, fun _ => rfl⟩

/-- Claim C5 (refuted by the code, which is a bug against the spec's stated
intent): a resolved response claiming `direct_nspk: true` but lacking any
`transaction_id` field is returned to the caller as a success value; no
ProtocolError is raised (no such failure kind exists in the code). -/
theorem createPaymentIntent_accepts_nspk_response_missing_transaction_id :
    Json.objKeys demoNspkResponseMissingTx =
      ["code", "payment_id", "payment_url", "error", "direct_nspk"] ∧
    "transaction_id" ∉ Json.objKeys demoNspkResponseMissingTx ∧
    AntilopayService.createPaymentIntentOutcome (.resolved demoNspkResponseMissingTx) =
      .returned demoNspkResponseMissingTx :=
  ⟨rfl, by decide, rfl⟩

/-- Claim C9 (confirmed): the headers `createPaymentIntent` attaches do not
depend on the request body — any two intents yield identical headers — and
the X-Apay-Sign value is always the signature over the serialization of the
empty object, determined solely by the stored algorithm, secret key and
output encoding. -/
theorem getApiHeaders_independent_of_request_body (csign : CryptoSign)
    (st : AntilopayService) (p1 p2 : IAntilopayPaymentIntent) :
    (AntilopayService.createPaymentIntentRequest csign st p1).headers =
      (AntilopayService.createPaymentIntentRequest csign st p2).headers ∧
    AntilopayService.getApiHeaders csign st =
      [("X-Apay-Secret-Id", st.projectId),
       ("X-Apay-Sign-Version", toString st.apiVersion),
       ("X-Apay-Sign",
        csign st.signingAlgorithm "\x7b\x7d" st.secretKey st.signingAlgorithmOutput)] :=
  ⟨rfl, rfl⟩

/-- Claim C10 (confirmed): `init` writes exactly the four credential fields
from its argument and leaves the base URL, API version, signing algorithm
and signing output encoding of the service unchanged. -/
theorem init_sets_exactly_the_four_credential_fields
    (st : AntilopayService) (c : IAntilopayServiceConstructor) :
    (AntilopayService.init st c).projectId = c.projectId ∧
    (AntilopayService.init st c).secretId = c.secretId ∧
    (AntilopayService.init st c).secretKey = c.secretKey ∧
    (AntilopayService.init st c).publicKey = c.publicKey ∧
    (AntilopayService.init st c).baseUrl = st.baseUrl ∧
    (AntilopayService.init st c).apiVersion = st.apiVersion ∧
    (AntilopayService.init st c).signingAlgorithm = st.signingAlgorithm ∧
    (AntilopayService.init st c).signingAlgorithmOutput = st.signingAlgorithmOutput :=
  ⟨rfl, rfl, rfl, rfl, rfl, rfl, rfl, rfl⟩

/-- Claim C8 (confirmed): two `getInstance` calls against the static slot
return the same instance and leave the slot as the first call set it, and
after `setBaseUrl u` the endpoints of subsequently issued
`createPaymentIntent` and `verifySignature` requests are rooted at `u`. -/
theorem getInstance_singleton_and_setBaseUrl_visible
    (slot : Option AntilopayService) (csign : CryptoSign)
    (st : AntilopayService) (u : String)
    (paymentIntent : IAntilopayPaymentIntent) (payload : Json) :
    (AntilopayService.getInstance (AntilopayService.getInstance slot).2).1 =
      (AntilopayService.getInstance slot).1 ∧
    (AntilopayService.getInstance (AntilopayService.getInstance slot).2).2 =
      (AntilopayService.getInstance slot).2 ∧
    (AntilopayService.createPaymentIntentRequest csign
        (AntilopayService.setBaseUrl st u) paymentIntent).url =
      u ++ "/payment/create" ∧
    (AntilopayService.verifySignatureRequest csign
        (AntilopayService.setBaseUrl st u) payload).url =
      u ++ "/signature/check" := by
  refine ⟨?_, ?_, rfl, rfl⟩ <;> cases slot <;> rfl

/-- Claim C7 (confirmed): constructing an `AntilopayCustomer` fails exactly
when both email and phone are empty; with either non-empty it succeeds, and
the constructed customer's `toJSON` carries exactly the five keys
email, phone, address, ip, fullname. -/
theorem customer_requires_email_or_phone (c : IAntilopayCustomer) :
    ((c.email = "" ∧ c.phone = "") →
      AntilopayCustomer.create c = .error "Either email or phone must be provided.") ∧
    ((c.email ≠ "" ∨ c.phone ≠ "") →
      ∃ cust, AntilopayCustomer.create c = .ok cust ∧
        Json.objKeys cust.toJSON = ["email", "phone", "address", "ip", "fullname"]) := by
  constructor
  · intro h
    simp [AntilopayCustomer.create, h.1, h.2]
  · intro h
    have hne : ¬ (c.email = "" ∧ c.phone = "") := by
      rcases h with h | h
      · exact fun hc => h hc.1
      · exact fun hc => h hc.2
    exact ⟨⟨c.email, c.phone, c.address, c.ipAddress, c.fullName⟩,
      by simp [AntilopayCustomer.create, hne], rfl⟩

/-- Constructor arguments with both email and phone empty. -/
def demoCustomerArgsEmpty : IAntilopayCustomer :=
  { email := "", phone := "", address := "addr", ipAddress := "127.0.0.1",
    fullName := "Joe" }

/-- Constructor arguments with an email and no phone. -/
def demoCustomerArgs : IAntilopayCustomer :=
  { email := "a@b.test", phone := "", address := "addr", ipAddress := "1.2.3.4",
    fullName := "Jane" }

/-- Witness for C7 at concrete inputs: the empty-contact construction fails
and the email-only construction succeeds with the five canonical keys. -/
theorem customer_requires_email_or_phone_witness :
    AntilopayCustomer.create demoCustomerArgsEmpty =
      .error "Either email or phone must be provided." ∧
    (∃ cust, AntilopayCustomer.create demoCustomerArgs = .ok cust ∧
      Json.objKeys cust.toJSON = ["email", "phone", "address", "ip", "fullname"]) :=
  ⟨(customer_requires_email_or_phone demoCustomerArgsEmpty).1 ⟨rfl, rfl⟩,
   (customer_requires_email_or_phone demoCustomerArgs).2 (Or.inl (by decide))⟩

/-- Claim C2 (confirmed against the spec-modelled verifier): whenever the
external RSA primitive pair satisfies the signing/verification pairing for
the account's private and public keys, verifying a payload against the
signature `generateSignature` produced for it succeeds, because signer and
verifier serialize the payload with the same deterministic rules. -/
theorem verify_of_generateSignature_roundtrip (prim : CryptoPrimitive)
    (st : AntilopayService) (payload : Json)
    (hpair : ∀ data, prim.verify st.signingAlgorithm data st.publicKey
        (prim.sign st.signingAlgorithm data st.secretKey st.signingAlgorithmOutput)
        st.signingAlgorithmOutput = true) :
    SignatureEngine.verify prim st payload
      (AntilopayService.generateSignature prim.sign st payload) = true :=
  hpair (Json.stringify payload)

/-- Witness for C2: the concrete primitive pair `demoPrimitive` satisfies
the pairing for `demoService`'s keys, and the round trip verifies a concrete
payload. -/
theorem verify_of_generateSignature_roundtrip_witness :
    SignatureEngine.verify demoPrimitive demoService (Json.obj [("x", Json.num 1)])
      (AntilopayService.generateSignature demoPrimitive.sign demoService
        (Json.obj [("x", Json.num 1)])) = true :=
  verify_of_generateSignature_roundtrip demoPrimitive demoService
    (Json.obj [("x", Json.num 1)])
    (fun data => by
      simp [demoPrimitive, demoSign, demoService, demoCredentials,
        AntilopayService.init, AntilopayService.construct])

/-- Claim C6 (confirmed against the spec-modelled verifier): webhook
verification always returns an outcome (Accepted or one of the two Rejected
reasons) and never throws; a non-parseable body yields
Rejected "malformed payload" and a parseable body whose signature check
fails yields Rejected "signature mismatch". -/
theorem webhook_verify_total_outcomes (prim : CryptoPrimitive)
    (st : AntilopayService) (parse : String → Option Json)
    (rawBody claimedSignature : String) :
    ((∃ payload, WebhookVerifier.verify prim st parse rawBody claimedSignature =
        .accepted payload) ∨
      WebhookVerifier.verify prim st parse rawBody claimedSignature =
        .rejected "signature mismatch" ∨
      WebhookVerifier.verify prim st parse rawBody claimedSignature =
        .rejected "malformed payload") ∧
    (parse rawBody = none →
      WebhookVerifier.verify prim st parse rawBody claimedSignature =
        .rejected "malformed payload") ∧
    (∀ payload, parse rawBody = some payload →
      SignatureEngine.verify prim st payload claimedSignature = false →
      WebhookVerifier.verify prim st parse rawBody claimedSignature =
        .rejected "signature mismatch") := by
  cases hp : parse rawBody with
  | none =>
      refine ⟨Or.inr (Or.inr ?_), fun _ => ?_, fun payload hps hv => ?_⟩
      · simp [WebhookVerifier.verify, hp]
      · simp [WebhookVerifier.verify, hp]
      · cases hps
  | some payload =>
      cases hv : SignatureEngine.verify prim st payload claimedSignature with
      | false =>
          refine ⟨Or.inr (Or.inl ?_), fun hn => ?_, fun q hq hvf => ?_⟩
          · simp [WebhookVerifier.verify, hp, hv]
          · cases hn
          · simp [WebhookVerifier.verify, hp, hv]
      | true =>
          refine ⟨Or.inl ⟨payload, ?_⟩, fun hn => ?_, fun q hq hvf => ?_⟩
          · simp [WebhookVerifier.verify, hp, hv]
          · cases hn
          · injection hq with h
            subst h
            rw [hv] at hvf
            cases hvf

/-- Witness for C6: a parser that fails on the given body makes the verifier
answer Rejected "malformed payload". -/
theorem webhook_verify_total_outcomes_witness :
    WebhookVerifier.verify demoPrimitive demoService (fun _ => none)
      "not json" "sig" = .rejected "malformed payload" :=
  (webhook_verify_total_outcomes demoPrimitive demoService (fun _ => none)
    "not json" "sig").2.1 rfl
